import Mathlib

set_option maxRecDepth 100000

/-!
Verification of the MedCompanion demo chat component (photo recognition and
rule-based AI chat) and of the backend startup script preconditions.

The JavaScript source is shallowly embedded: the medication catalog, the
conversation state, the response engine `generateAIResponse`, the history
operations, and the startup script exit-code logic are translated into
executable Lean definitions, and the specified properties are proved about
them.
-/

/-- Prefix test on character lists: `listStarts p l` is true iff `p` is an
initial segment of `l`.  Used to implement substring containment. -/
def listStarts : List Char → List Char → Bool
  | [], _ => true
  | _ :: _, [] => false
  | p :: ps, c :: cs => (p == c) && listStarts ps cs

/-- Substring scan on character lists: `listHasSub pat l` is true iff `pat`
occurs contiguously somewhere in `l`. -/
def listHasSub (pat : List Char) : List Char → Bool
  | [] => pat.isEmpty
  | c :: rest => listStarts pat (c :: rest) || listHasSub pat rest

/-- JavaScript `s.includes(pat)`: substring containment. -/
def jsIncludes (s pat : String) : Bool :=
  listHasSub pat.data s.data

/-- JavaScript `s.toLowerCase()` (exact on the ASCII strings this program
uses). -/
def jsToLower (s : String) : String :=
  ⟨s.data.map Char.toLower⟩

/-- One medication record of the mock database (part_001 lines 4-32). -/
structure MedRecord where
  name : String
  genericName : String
  dosage : String
  drugClass : String
  description : String
  sideEffects : String
  instructions : String
deriving DecidableEq, Repr

/-- The metformin catalog entry. -/
def metformin : MedRecord :=
  { name := "Metformin"
    genericName := "Metformin Hydrochloride"
    dosage := "500mg"
    drugClass := "Antidiabetic"
    description := "Used to control blood sugar levels in people with type 2 diabetes."
    sideEffects := "Nausea, diarrhea, stomach upset"
    instructions := "Take with food to reduce stomach upset" }

/-- The lisinopril catalog entry. -/
def lisinopril : MedRecord :=
  { name := "Lisinopril"
    genericName := "Lisinopril"
    dosage := "10mg"
    drugClass := "ACE Inhibitor"
    description := "Used to treat high blood pressure and heart failure."
    sideEffects := "Dizziness, dry cough, headache"
    instructions := "Take once daily, preferably at the same time each day" }

/-- The aspirin catalog entry. -/
def aspirin : MedRecord :=
  { name := "Aspirin"
    genericName := "Acetylsalicylic Acid"
    dosage := "81mg"
    drugClass := "Antiplatelet"
    description := "Used to reduce the risk of heart attack and stroke."
    sideEffects := "Stomach upset, heartburn"
    instructions := "Take with food or milk" }

/-- The mock medication database: an association list keyed by the canonical
lowercase identifier, in the insertion order of the JavaScript object literal. -/
def medicationDatabase : List (String × MedRecord) :=
  [("metformin", metformin), ("lisinopril", lisinopril), ("aspirin", aspirin)]

/-- `Object.keys(medicationDatabase)` (insertion order). -/
def medKeys : List String :=
  medicationDatabase.map Prod.fst

/-- `medicationDatabase[k]`: lookup by key. -/
def dbGet (k : String) : Option MedRecord :=
  medicationDatabase.lookup k

/-- One entry of `conversationHistory`: `{ role, content }` as pushed by
`addUserMessage` and `addAIMessage` (the code stores the literal role strings
"user" and "ai"). -/
structure Message where
  role : String
  content : String
deriving DecidableEq, Repr

/-- The mutable page state touched by the demo component: the conversation
context (`currentMedication`, `conversationHistory`) plus the DOM-held upload
state that `resetUpload` clears. -/
structure DemoState where
  currentMedication : Option MedRecord
  conversationHistory : List Message
  previewImageSrc : String
  fileInputValue : String
  uploadZoneHidden : Bool
  photoPreviewHidden : Bool
deriving Repr

/-- `addUserMessage(text)`: pushes `{ role: "user", content: text }` onto the
history (the DOM append is not part of the logical state). -/
def addUserMessage (text : String) (s : DemoState) : DemoState :=
  { s with conversationHistory := s.conversationHistory ++ [⟨"user", text⟩] }

/-- `addAIMessage(text)`: pushes `{ role: "ai", content: text }` onto the
history. -/
def addAIMessage (text : String) (s : DemoState) : DemoState :=
  { s with conversationHistory := s.conversationHistory ++ [⟨"ai", text⟩] }

/-- The recognition summary message built by `recognizePill` from the selected
record. -/
def recognitionMessage (med : MedRecord) : String :=
  "I\x27ve identified your medication! This appears to be **" ++ med.name ++
    "** (" ++ med.genericName ++ "), " ++ med.dosage ++
    ".\n\n**What it\x27s for:** " ++ med.description ++
    "\n\n**Drug class:** " ++ med.drugClass ++
    "\n\nWould you like to know more about side effects, dosage instructions, or anything else?"

/-- `recognizePill()`: the random draw `Math.floor(Math.random() * meds.length)`
is exposed as the index `r`, which is always a valid index of `medKeys` because
`Math.random()` lies in `[0, 1)`.  The drawn key is looked up in the database,
stored as `currentMedication`, and the recognition summary is appended. -/
def recognizePill (r : Fin medKeys.length) (s : DemoState) : DemoState :=
  let randomMed := medKeys.get r
  match dbGet randomMed with
  | some med => addAIMessage (recognitionMessage med) { s with currentMedication := some med }
  | none => s

/-- `resetUpload()`: restores the upload zone, hides and clears the preview,
clears the file input and sets `currentMedication = null`.  The history is not
touched. -/
def resetUpload (s : DemoState) : DemoState :=
  { s with
    uploadZoneHidden := false
    photoPreviewHidden := true
    previewImageSrc := ""
    fileInputValue := ""
    currentMedication := none }

/-- The guard-rail condition of `generateAIResponse` (part_001 lines 164-167):
the lowercased message contains one of the four refusal triggers. -/
def refusalCond (lower : String) : Bool :=
  jsIncludes lower "dosage change" || jsIncludes lower "stop taking" ||
    jsIncludes lower "instead of" || jsIncludes lower "replace"

/-- The fixed refusal message returned by the guard rail. -/
def refusalMessage : String :=
  "I can\x27t provide advice on changing your medication dosage or treatment plan. Please consult your doctor or pharmacist for any changes to your prescribed medications. Your safety is my top priority!"

/-- The side-effect template reply (context rule 1). -/
def sideEffectReply (med : MedRecord) : String :=
  "Common side effects of " ++ med.name ++ " include: " ++ med.sideEffects ++
    ". \n\nIf you experience severe or persistent side effects, please contact your healthcare provider immediately."

/-- The how-to-take template reply (context rule 2). -/
def instructionsReply (med : MedRecord) : String :=
  "**Instructions for " ++ med.name ++ ":**\n\n" ++ med.instructions ++
    "\n\nAlways follow your doctor\x27s specific instructions, as they may differ based on your individual needs."

/-- The what-is template reply (context rule 3). -/
def identityReply (med : MedRecord) : String :=
  med.name ++ " is a " ++ med.drugClass ++ " medication. " ++ med.description ++
    "\n\nIt\x27s important to take it as prescribed by your doctor for the best results."

/-- The food-interaction template reply (context rule 4). -/
def foodReply (med : MedRecord) : String :=
  med.instructions ++
    "\n\nIf you\x27re unsure about food interactions, check with your pharmacist or the medication guide that came with your prescription."

/-- The missed-dose template reply (context rule 5). -/
def missedDoseReply (med : MedRecord) : String :=
  "If you miss a dose of " ++ med.name ++
    ", take it as soon as you remember. However, if it\x27s almost time for your next dose, skip the missed dose and continue with your regular schedule.\n\nNever double up on doses. If you\x27re unsure, contact your pharmacist for guidance."

/-- The fixed gratitude reply. -/
def thankReply : String :=
  "You\x27re welcome! I\x27m here to help you understand your medications better. Feel free to ask anything else!"

/-- The fixed greeting reply. -/
def greetingReply : String :=
  "Hello! I\x27m here to help you with your medication questions. Upload a photo of your pill, or ask me anything about your medications!"

/-- The fallback default reply, personalized with the medication name when a
context is present. -/
def defaultResponse (cm : Option MedRecord) : String :=
  "I\x27d be happy to help with that! " ++
    (match cm with
      | some med => "For " ++ med.name ++ ", "
      | none => "") ++
    "I can provide information about:\n\n• Side effects\n• How to take it\n• What it\x27s used for\n• What to do if you miss a dose\n\nWhat would you like to know?"

/-- The context-aware block of `generateAIResponse` (part_001 lines 172-204):
when a medication is set, the five keyword rules are tried in order and the
first match returns early; otherwise the block falls through (`none`). -/
def contextResponse (lower : String) : Option MedRecord → Option String
  | none => none
  | some med =>
    if jsIncludes lower "side effect" then some (sideEffectReply med)
    else if jsIncludes lower "how to take" || jsIncludes lower "instruction" then
      some (instructionsReply med)
    else if jsIncludes lower "what is" || jsIncludes lower "what does" then
      some (identityReply med)
    else if jsIncludes lower "food" || jsIncludes lower "eat" then
      some (foodReply med)
    else if jsIncludes lower "miss" || jsIncludes lower "forgot" then
      some (missedDoseReply med)
    else none

/-- The general block of `generateAIResponse` (part_001 lines 207-223):
gratitude, then greeting, then the fallback default. -/
def generalResponse (lower : String) (cm : Option MedRecord) : String :=
  if jsIncludes lower "thank" then thankReply
  else if jsIncludes lower "hello" || jsIncludes lower "hi" then greetingReply
  else defaultResponse cm

/-- `generateAIResponse(userMessage)` reading the global `currentMedication`
passed here as `cm`: guard rail first, then the context block, then the
general block. -/
def generateAIResponse (userMessage : String) (cm : Option MedRecord) : String :=
  let lowerMessage := jsToLower userMessage
  if refusalCond lowerMessage then refusalMessage
  else (contextResponse lowerMessage cm).getD (generalResponse lowerMessage cm)

/-- `sendMessage()`: trims the input, returns early when it is empty, appends
the user message, then generates the reply from the (unchanged) context and
appends it as an AI message. -/
def sendMessage (input : String) (s : DemoState) : DemoState :=
  let message := input.trim
  if message = "" then s
  else
    let s1 := addUserMessage message s
    let response := generateAIResponse message s1.currentMedication
    addAIMessage response s1

/-- The literal pattern searched by the startup script check
`grep -q "GEMINI_API_KEY=.*[^_]" .env`. -/
def keyPat : List Char :=
  "GEMINI_API_KEY=".data

/-- Whether one line of the configuration file matches the regular expression
`GEMINI_API_KEY=.*[^_]`: the literal pattern occurs somewhere in the line and
is followed, at some later position, by a character other than an underscore.
Implemented as the left-to-right scan grep performs. -/
def keyRegexMatches : List Char → Bool
  | [] => false
  | c :: rest =>
    (listStarts keyPat (c :: rest) &&
        ((c :: rest).drop keyPat.length).any (fun ch => ch != '_'))
      || keyRegexMatches rest

/-- The exit behavior of start.sh (part_000 lines 9-52): exit 1 when the venv
directory is absent, exit 1 when the .env file is absent, exit 1 when no line
of .env passes the grep check, and otherwise start the server (modelled as
exit code 0, the process being replaced). -/
def startScriptExit (venvPresent envFilePresent : Bool) (envLines : List String) : Nat :=
  if !venvPresent then 1
  else if !envFilePresent then 1
  else if !(envLines.any fun l => keyRegexMatches l.data) then 1
  else 0

/-- Modelled from the spec: the spec calls the third precondition the absence
of a "placeholder (not a real key)" value; the placeholder strings are the
example values the startup script itself prints to the operator. -/
def specIsPlaceholderKey (v : String) : Bool :=
  v == "your_api_key_here" || v == "your_actual_api_key_here"

/-- C1: an utterance whose lowercased form contains any refusal trigger gets
the fixed refusal message, for every context, even when context-dependent or
general keywords also match. -/
theorem refusal_rule_unconditional (u : String) (cm : Option MedRecord)
    (h : refusalCond (jsToLower u) = true) :
    generateAIResponse u cm = refusalMessage := by
  simp [generateAIResponse, h]

/-- Witness for C1 at an utterance that also matches the side-effect context
keyword, with a medication set. -/
theorem refusal_rule_unconditional_witness :
    refusalCond (jsToLower "stop taking side effect") = true ∧
      generateAIResponse "stop taking side effect" (some lisinopril) = refusalMessage :=
  ⟨by decide, refusal_rule_unconditional "stop taking side effect" (some lisinopril) (by decide)⟩

/-- C2 counterexample: with no medication set, the utterance "what is this"
returns the fixed greeting reply (because "this" contains "hi"), not the
fallback default message the claim states. -/
theorem what_is_this_cex :
    generateAIResponse "what is this" none = greetingReply ∧
      greetingReply ≠ defaultResponse none := by
  exact ⟨by decide, by decide⟩

/-- C2 amended: with no medication set no context-dependent rule can fire —
every reply is the refusal, gratitude, greeting or fallback message — and
"what is this" in particular gets the greeting reply, not the identity-rule
template of any catalog record. -/
theorem absent_context_general_only :
    (∀ u : String,
      generateAIResponse u none = refusalMessage ∨
        generateAIResponse u none = thankReply ∨
        generateAIResponse u none = greetingReply ∨
        generateAIResponse u none = defaultResponse none) ∧
      generateAIResponse "what is this" none = greetingReply ∧
      greetingReply ≠ identityReply metformin ∧
      greetingReply ≠ identityReply lisinopril ∧
      greetingReply ≠ identityReply aspirin := by
  refine ⟨fun u => ?_, by decide, by decide, by decide, by decide⟩
  simp only [generateAIResponse, contextResponse, Option.getD_none, generalResponse]
  split_ifs <;> tauto

/-- C3 counterexample: an utterance containing "side effect" together with a
refusal trigger is answered by the refusal message, which does not contain the
Lisinopril side-effect list. -/
theorem side_effect_refusal_cex :
    jsIncludes (jsToLower "should I stop taking it after a side effect") "side effect" = true ∧
      jsIncludes
          (generateAIResponse "should I stop taking it after a side effect" (some lisinopril))
          "Dizziness, dry cough, headache" = false := by
  exact ⟨by decide, by decide⟩

/-- C3 amended: every utterance containing "side effect" and no refusal
trigger, asked with Lisinopril as the current medication, is answered with a
string containing "Dizziness, dry cough, headache". -/
theorem side_effect_lisinopril_reply (u : String)
    (h1 : jsIncludes (jsToLower u) "side effect" = true)
    (h2 : refusalCond (jsToLower u) = false) :
    jsIncludes (generateAIResponse u (some lisinopril)) "Dizziness, dry cough, headache"
      = true := by
  simp only [generateAIResponse, contextResponse, h1, h2, Bool.false_eq_true, if_false, if_true,
    Option.getD_some]
  decide

/-- Witness for C3 amended at the utterance "any side effects?". -/
theorem side_effect_lisinopril_reply_witness :
    jsIncludes (jsToLower "any side effects?") "side effect" = true ∧
      refusalCond (jsToLower "any side effects?") = false ∧
      jsIncludes (generateAIResponse "any side effects?" (some lisinopril))
          "Dizziness, dry cough, headache" = true :=
  ⟨by decide, by decide, side_effect_lisinopril_reply "any side effects?" (by decide) (by decide)⟩

/-- C4: with a medication set and no refusal trigger, the five context rules
are tested in the fixed order side-effect, instructions, identity, food,
missed-dose; the first match produces the reply, and when none matches the
general block is used. -/
theorem context_rule_order (u : String) (med : MedRecord)
    (h : refusalCond (jsToLower u) = false) :
    (jsIncludes (jsToLower u) "side effect" = true →
        generateAIResponse u (some med) = sideEffectReply med) ∧
      (jsIncludes (jsToLower u) "side effect" = false →
        (jsIncludes (jsToLower u) "how to take" || jsIncludes (jsToLower u) "instruction")
            = true →
        generateAIResponse u (some med) = instructionsReply med) ∧
      (jsIncludes (jsToLower u) "side effect" = false →
        (jsIncludes (jsToLower u) "how to take" || jsIncludes (jsToLower u) "instruction")
            = false →
        (jsIncludes (jsToLower u) "what is" || jsIncludes (jsToLower u) "what does") = true →
        generateAIResponse u (some med) = identityReply med) ∧
      (jsIncludes (jsToLower u) "side effect" = false →
        (jsIncludes (jsToLower u) "how to take" || jsIncludes (jsToLower u) "instruction")
            = false →
        (jsIncludes (jsToLower u) "what is" || jsIncludes (jsToLower u) "what does") = false →
        (jsIncludes (jsToLower u) "food" || jsIncludes (jsToLower u) "eat") = true →
        generateAIResponse u (some med) = foodReply med) ∧
      (jsIncludes (jsToLower u) "side effect" = false →
        (jsIncludes (jsToLower u) "how to take" || jsIncludes (jsToLower u) "instruction")
            = false →
        (jsIncludes (jsToLower u) "what is" || jsIncludes (jsToLower u) "what does") = false →
        (jsIncludes (jsToLower u) "food" || jsIncludes (jsToLower u) "eat") = false →
        (jsIncludes (jsToLower u) "miss" || jsIncludes (jsToLower u) "forgot") = true →
        generateAIResponse u (some med) = missedDoseReply med) ∧
      (jsIncludes (jsToLower u) "side effect" = false →
        (jsIncludes (jsToLower u) "how to take" || jsIncludes (jsToLower u) "instruction")
            = false →
        (jsIncludes (jsToLower u) "what is" || jsIncludes (jsToLower u) "what does") = false →
        (jsIncludes (jsToLower u) "food" || jsIncludes (jsToLower u) "eat") = false →
        (jsIncludes (jsToLower u) "miss" || jsIncludes (jsToLower u) "forgot") = false →
        generateAIResponse u (some med) = generalResponse (jsToLower u) (some med)) := by
  refine ⟨?_, ?_, ?_, ?_, ?_, ?_⟩ <;> intros <;>
    simp_all [generateAIResponse, contextResponse]

/-- Witness for C4 at an utterance matching both "side effect" and "food":
the earlier side-effect rule wins. -/
theorem context_rule_order_witness :
    refusalCond (jsToLower "side effect food") = false ∧
      jsIncludes (jsToLower "side effect food") "side effect" = true ∧
      jsIncludes (jsToLower "side effect food") "food" = true ∧
      generateAIResponse "side effect food" (some lisinopril) = sideEffectReply lisinopril :=
  ⟨by decide, by decide, by decide,
    (context_rule_order "side effect food" lisinopril (by decide)).1 (by decide)⟩

/-- C5: every possible random draw makes `recognizePill` select a member of
the fixed 3-entry catalog, store it as the current medication, and append
exactly one non-empty AI message containing the name, generic name, dosage,
description and drug class of the selected record. -/
theorem recognize_pill_catalog (r : Fin medKeys.length) (s : DemoState) :
    ∃ med : MedRecord,
      med ∈ medicationDatabase.map Prod.snd ∧
        (recognizePill r s).currentMedication = some med ∧
        (recognizePill r s).conversationHistory
            = s.conversationHistory ++ [⟨"ai", recognitionMessage med⟩] ∧
        recognitionMessage med ≠ "" ∧
        jsIncludes (recognitionMessage med) med.name = true ∧
        jsIncludes (recognitionMessage med) med.genericName = true ∧
        jsIncludes (recognitionMessage med) med.dosage = true ∧
        jsIncludes (recognitionMessage med) med.description = true ∧
        jsIncludes (recognitionMessage med) med.drugClass = true := by
  fin_cases r
  · exact ⟨metformin, by decide, rfl, rfl, by decide, by decide, by decide, by decide,
      by decide, by decide⟩
  · exact ⟨lisinopril, by decide, rfl, rfl, by decide, by decide, by decide, by decide,
      by decide, by decide⟩
  · exact ⟨aspirin, by decide, rfl, rfl, by decide, by decide, by decide, by decide,
      by decide, by decide⟩

/-- C6: reset clears the current medication and the preview image reference
and leaves the conversation history exactly as it was. -/
theorem reset_upload_contract (s : DemoState) :
    (resetUpload s).currentMedication = none ∧
      (resetUpload s).previewImageSrc = "" ∧
      (resetUpload s).fileInputValue = "" ∧
      (resetUpload s).conversationHistory = s.conversationHistory :=
  ⟨rfl, rfl, rfl, rfl⟩

/-- C7: `generateAIResponse` is a total function to strings and mutates
nothing: along the send path the current medication is unchanged and the reply
reaches the history only through the caller, which appends the user message
and then the generated reply. -/
theorem generate_response_pure (msg : String) (s : DemoState) :
    (sendMessage msg s).currentMedication = s.currentMedication ∧
      ((msg.trim = "" ∧ sendMessage msg s = s) ∨
        (sendMessage msg s).conversationHistory
            = s.conversationHistory ++
                [⟨"user", msg.trim⟩,
                  ⟨"ai", generateAIResponse msg.trim s.currentMedication⟩]) := by
  by_cases h : msg.trim = ""
  · exact ⟨by simp [sendMessage, h], Or.inl ⟨h, by simp [sendMessage, h]⟩⟩
  · exact ⟨by simp [sendMessage, h, addUserMessage, addAIMessage],
      Or.inr (by simp [sendMessage, h, addUserMessage, addAIMessage])⟩

/-- C8: the history is append-only and order-preserving — the user path and
the AI path each append exactly one entry with the respective role at the end,
and recognition, reset and the send path only ever extend the history. -/
theorem history_append_only (s : DemoState) (t : String) (r : Fin medKeys.length) :
    (addUserMessage t s).conversationHistory = s.conversationHistory ++ [⟨"user", t⟩] ∧
      (addAIMessage t s).conversationHistory = s.conversationHistory ++ [⟨"ai", t⟩] ∧
      (∃ tail, (recognizePill r s).conversationHistory = s.conversationHistory ++ tail) ∧
      (resetUpload s).conversationHistory = s.conversationHistory ∧
      (∃ tail, (sendMessage t s).conversationHistory = s.conversationHistory ++ tail) := by
  refine ⟨rfl, rfl, ?_, rfl, ?_⟩
  · simp only [recognizePill]
    rcases hd : dbGet (medKeys.get r) with _ | med
    · exact ⟨[], by simp [hd]⟩
    · exact ⟨[⟨"ai", recognitionMessage med⟩], by simp [hd, addAIMessage]⟩
  · by_cases h : t.trim = ""
    · exact ⟨[], by simp [sendMessage, h]⟩
    · exact ⟨[⟨"user", t.trim⟩, ⟨"ai", generateAIResponse t.trim s.currentMedication⟩],
        by simp [sendMessage, h, addUserMessage, addAIMessage]⟩

/-- C10 counterexample: "thanks for this" contains "hi" (inside "this"),
triggers no refusal and no context rule, yet the reply is the gratitude
message, not the greeting the claim states. -/
theorem hi_substring_cex :
    jsIncludes (jsToLower "thanks for this") "hi" = true ∧
      refusalCond (jsToLower "thanks for this") = false ∧
      contextResponse (jsToLower "thanks for this") none = none ∧
      generateAIResponse "thanks for this" none = thankReply ∧
      thankReply ≠ greetingReply := by
  exact ⟨by decide, by decide, rfl, by decide, by decide⟩

/-- C10 amended: keyword matching is raw substring containment — every
utterance whose lowercased form contains "hi" (even inside a longer word),
with no refusal trigger, no matching context rule and no "thank" substring,
gets the fixed greeting reply rather than the fallback message. -/
theorem hi_substring_greeting (u : String) (cm : Option MedRecord)
    (h1 : jsIncludes (jsToLower u) "hi" = true)
    (h2 : refusalCond (jsToLower u) = false)
    (h3 : contextResponse (jsToLower u) cm = none)
    (h4 : jsIncludes (jsToLower u) "thank" = false) :
    generateAIResponse u cm = greetingReply := by
  simp [generateAIResponse, generalResponse, h1, h2, h3, h4]

/-- Witness for C10 amended at the utterance "this" with no context: "this"
contains "hi" and the reply is the greeting. -/
theorem hi_substring_greeting_witness :
    jsIncludes (jsToLower "this") "hi" = true ∧
      generateAIResponse "this" none = greetingReply :=
  ⟨by decide, hi_substring_greeting "this" none (by decide) (by decide) rfl (by decide)⟩

/-- `listStarts` decides the initial-segment relation. -/
theorem listStarts_iff (p : List Char) : ∀ l : List Char,
    listStarts p l = true ↔ ∃ t, l = p ++ t := by
  induction p with
  | nil =>
    intro l
    simp [listStarts]
  | cons x ps ih =>
    intro l
    cases l with
    | nil => simp [listStarts]
    | cons c cs =>
      rw [listStarts]
      simp only [Bool.and_eq_true, beq_iff_eq, ih, List.cons_append, List.cons_eq_cons]
      constructor
      · rintro ⟨rfl, t, rfl⟩
        exact ⟨t, rfl, rfl⟩
      · rintro ⟨t, rfl, rfl⟩
        exact ⟨rfl, t, rfl⟩

/-- `keyRegexMatches` decides exactly the declarative reading of the regular
expression `GEMINI_API_KEY=.*[^_]`: the line splits as some prefix, the
literal pattern, then later a character that is not an underscore. -/
theorem keyRegexMatches_iff : ∀ l : List Char,
    keyRegexMatches l = true ↔
      ∃ a b c d, l = a ++ keyPat ++ (b ++ c :: d) ∧ c ≠ '_' := by
  intro l
  induction l with
  | nil =>
    constructor
    · intro h
      simp [keyRegexMatches] at h
    · rintro ⟨a, b, c, d, h, -⟩
      have hlen := congrArg List.length h
      simp [keyPat] at hlen
      omega
  | cons x xs ih =>
    rw [keyRegexMatches]
    simp only [Bool.or_eq_true, Bool.and_eq_true]
    constructor
    · intro h
      rcases h with ⟨hst, hany⟩ | h2
      · rcases (listStarts_iff keyPat (x :: xs)).mp hst with ⟨t, ht⟩
        rw [ht, List.drop_left] at hany
        rcases List.any_eq_true.mp hany with ⟨ch, hmem, hne⟩
        rcases List.append_of_mem hmem with ⟨b, d, rfl⟩
        exact ⟨[], b, ch, d, by simpa using ht, bne_iff_ne.mp hne⟩
      · rcases ih.mp h2 with ⟨a, b, c, d, hx, hne⟩
        exact ⟨x :: a, b, c, d, by simp [hx], hne⟩
    · rintro ⟨a, b, c, d, h, hne⟩
      cases a with
      | nil =>
        left
        have ht : x :: xs = keyPat ++ (b ++ c :: d) := by simpa using h
        refine ⟨(listStarts_iff keyPat (x :: xs)).mpr ⟨b ++ c :: d, ht⟩, ?_⟩
        rw [ht, List.drop_left]
        exact List.any_eq_true.mpr ⟨c, by simp, bne_iff_ne.mpr hne⟩
      | cons a0 as =>
        right
        have hx : x = a0 ∧ xs = as ++ keyPat ++ (b ++ c :: d) := by
          simpa using h
        exact ih.mpr ⟨as, b, c, d, hx.2, hne⟩

/-- C9 counterexample: with the venv and .env present and .env holding the
placeholder value the script itself suggests, the grep check passes (the
placeholder contains non-underscore characters) and the server is started
instead of exiting with code 1. -/
theorem start_script_placeholder_cex :
    specIsPlaceholderKey "your_api_key_here" = true ∧
      startScriptExit true true ["GEMINI_API_KEY=your_api_key_here"] = 0 := by
  exact ⟨by decide, by decide⟩

/-- C9 amended: the script always exits 0 or 1, and it exits 0 (starts the
server) precisely when the venv directory is present, the .env file is
present, and some line of .env contains the literal GEMINI_API_KEY= followed
later by at least one non-underscore character; in every other case it exits
with code 1. -/
theorem start_script_exit_spec (v e : Bool) (lines : List String) :
    (startScriptExit v e lines = 0 ∨ startScriptExit v e lines = 1) ∧
      (startScriptExit v e lines = 0 ↔
        v = true ∧ e = true ∧
          ∃ l ∈ lines, ∃ a b c d, l.data = a ++ keyPat ++ (b ++ c :: d) ∧ c ≠ '_') := by
  have hiff : (lines.any fun l => keyRegexMatches l.data) = true ↔
      ∃ l ∈ lines, ∃ a b c d, l.data = a ++ keyPat ++ (b ++ c :: d) ∧ c ≠ '_' := by
    rw [List.any_eq_true]
    constructor
    · rintro ⟨l, hl, hm⟩
      exact ⟨l, hl, (keyRegexMatches_iff l.data).mp hm⟩
    · rintro ⟨l, hl, hx⟩
      exact ⟨l, hl, (keyRegexMatches_iff l.data).mpr hx⟩
  rw [← hiff]
  unfold startScriptExit
  cases v with
  | false => simp
  | true =>
    cases e with
    | false => simp
    | true =>
      cases hany : (lines.any fun l => keyRegexMatches l.data) with
      | false => simp [hany]
      | true => simp [hany]
